import Mathlib

/-!
# Verification of the cockatiel resilience policies

Shallow embedding of the circuit breaker state machine, retry engine,
bulkhead admission controller, breaker strategies and backoff generators,
together with theorems settling the specification claims.

Conventions of the embedding:
* Times (`Date.now()` values and durations) are `Int` milliseconds.
* Operation values and thrown errors are `Int`.
* Fractional JS numbers (thresholds, rates) are `Rat`.
* A single invocation of a wrapped operation is represented by an `Outcome`
  describing how the outcome classifier sees it; the executor's `invoke`
  turns it into a `FailureOrSuccess` or an unhandled throw.
-/

namespace Cockatiel

/-- The four possible results of invoking the wrapped operation once, as seen
through the outcome classifier (`ExecuteWrapper.invoke`): a successful value,
a thrown error matched by the error filter, a returned value matched by the
result filter, or a thrown error that no filter matches. -/
inductive Outcome where
  | success (v : Int)
  | handledError (e : Int)
  | handledValue (v : Int)
  | unhandled (e : Int)
deriving DecidableEq, Repr

/-- `FailureOrSuccess` from `common/Executor.ts`: `{success}` , `{error}` or
`{value}` (the latter two are the `FailureReason` shapes). -/
inductive FailureOrSuccess where
  | success (v : Int)
  | errorReason (e : Int)
  | valueReason (v : Int)
deriving DecidableEq, Repr

/-- `ExecuteWrapper.invoke`: classifies one invocation. An error not matched
by the error filter is rethrown (`Except.error`), everything else is
returned as a `FailureOrSuccess`. -/
def invoke : Outcome → Except Int FailureOrSuccess
  | .success v => .ok (.success v)
  | .handledError e => .ok (.errorReason e)
  | .handledValue v => .ok (.valueReason v)
  | .unhandled e => .error e

/-- Errors surfaced by a policy `execute` call. -/
inductive ExecError where
  | thrown (e : Int)
  | brokenCircuit
  | isolatedCircuit
  | taskCancelled
deriving DecidableEq, Repr

/-- `returnOrThrow` from `common/Executor.ts`: an `{error}` reason is thrown,
a `{success}` or `{value}` shape resolves with the contained value. -/
def returnOrThrow : FailureOrSuccess → Except ExecError Int
  | .success v => .ok v
  | .errorReason e => .error (.thrown e)
  | .valueReason v => .ok v

/-! ## Backoffs (factory style, `backoff/Backoff.ts`)

`IBackoffFactory.next(context)` produces the first step; a step has a
`duration` and its own `next`. -/

/-- A step of `IterableBackoff` (`backoff/IterableBackoff.ts`): a fixed list
of durations and the index of the current one. -/
structure IterableBackoffStep where
  durations : List Int
  index : Nat
deriving DecidableEq, Repr

/-- `instance(durations, index).duration` = `durations[index]`. -/
def IterableBackoffStep.durationOf (b : IterableBackoffStep) : Int :=
  b.durations.getD b.index 0

/-- `instance(durations, index).next()`: stays on the final element once it is
reached, otherwise advances the index. -/
def IterableBackoffStep.nextStep (b : IterableBackoffStep) : IterableBackoffStep :=
  if b.index = b.durations.length - 1 then b else { b with index := b.index + 1 }

/-- `new IterableBackoff(durations).next(context)` = `instance(durations, 0)`. -/
def iterableFactoryNext (durations : List Int) : IterableBackoffStep :=
  { durations := durations, index := 0 }

/-! ## Circuit breaker state machine (`CircuitBreakerPolicy`)

The policy is parameterised by a breaker strategy (type `σ` with
`success`/`failure` operations) and by a half-open-after backoff (type `B`
with `duration`/`next` operations), mirroring `IBreaker` and `IBackoff`. -/

/-- `CircuitState` enum. -/
inductive CircuitState where
  | Closed
  | Open
  | HalfOpen
  | Isolated
deriving DecidableEq, Repr

/-- Context passed into the half-open-after backoff (`IHalfOpenAfterBackoffContext`):
the consecutive open attempt number and the failure reason. -/
structure HalfOpenContext where
  attempt : Nat
  result : FailureOrSuccess
deriving DecidableEq, Repr

/-- Operations of a breaker strategy (`IBreaker`): `success(circuitState)`
mutates the state, `failure(circuitState)` mutates it and reports whether the
circuit should open. -/
structure BreakerOps (σ : Type) where
  success : σ → CircuitState → σ
  failure : σ → CircuitState → σ × Bool

/-- Operations of a backoff step (`IBackoff`): its duration and the next step.
The breaker uses `next` directly (its factories never stop). -/
structure BackoffOps (B : Type) where
  duration : B → Int
  next : B → HalfOpenContext → B

/-- The breaker's `InnerState` union. The half-open `test` promise is not a
field here; the in-flight probe is representated explicitly by the scenario
functions below. -/
inductive InnerState (B : Type) where
  | closed
  | isolated (counters : Nat)
  | opened (openedAt : Int) (attemptNo : Nat) (backoff : B)
  | halfOpen (attemptNo : Nat) (backoff : B)
deriving DecidableEq, Repr

/-- `innerState.value`. -/
def InnerState.value {B : Type} : InnerState B → CircuitState
  | .closed => .Closed
  | .isolated _ => .Isolated
  | .opened _ _ _ => .Open
  | .halfOpen _ _ => .HalfOpen

/-- The mutable fields of a `CircuitBreakerPolicy`: the pluggable strategy's
state, the state variant, and `innerLastFailure`. -/
structure CBState (σ B : Type) where
  strategy : σ
  inner : InnerState B
  lastFailure : Option FailureOrSuccess
deriving DecidableEq, Repr

/-- `CircuitBreakerPolicy.open(reason)`: no-op when isolated or already open;
from half-open the attempt number is kept and the stored backoff step is
advanced via `next`; from closed the attempt number is 1 and the factory
produces the first step. `openedAt` is the current time. -/
def cbOpen {σ B : Type} (bk : BackoffOps B) (factory : HalfOpenContext → B)
    (reason : FailureOrSuccess) (now : Int) (s : CBState σ B) : CBState σ B :=
  match s.inner with
  | .isolated _ => s
  | .opened _ _ _ => s
  | .halfOpen attemptNo backoff =>
      { s with inner := .opened now attemptNo (bk.next backoff ⟨attemptNo, reason⟩) }
  | .closed =>
      { s with inner := .opened now 1 (factory ⟨1, reason⟩) }

/-- `CircuitBreakerPolicy.close()`: transitions to closed only from half-open. -/
def cbClose {σ B : Type} (s : CBState σ B) : CBState σ B :=
  match s.inner with
  | .halfOpen _ _ => { s with inner := .closed }
  | _ => s

/-- The `CircuitState.Closed` branch of `execute`: invoke the operation, feed
the outcome to the strategy (opening the circuit when `failure` says so), and
`returnOrThrow` the result. An unhandled throw propagates without touching
the strategy or the state. -/
def closedExec {σ B : Type} (bops : BreakerOps σ) (bk : BackoffOps B)
    (factory : HalfOpenContext → B) (now : Int) (o : Outcome) (s : CBState σ B) :
    CBState σ B × Except ExecError Int :=
  match invoke o with
  | .error e => (s, .error (.thrown e))
  | .ok (.success v) =>
      ({ s with strategy := bops.success s.strategy .Closed }, .ok v)
  | .ok (.errorReason e) =>
      let fr := bops.failure s.strategy .Closed
      let s' : CBState σ B :=
        { s with strategy := fr.1, lastFailure := some (.errorReason e) }
      (if fr.2 then cbOpen bk factory (.errorReason e) now s' else s',
        returnOrThrow (.errorReason e))
  | .ok (.valueReason v) =>
      let fr := bops.failure s.strategy .Closed
      let s' : CBState σ B :=
        { s with strategy := fr.1, lastFailure := some (.valueReason v) }
      (if fr.2 then cbOpen bk factory (.valueReason v) now s' else s',
        returnOrThrow (.valueReason v))

/-- The state update of the `CircuitState.Open` branch of `execute` once the
reopen delay has elapsed (lines setting `innerState` to half-open): the
attempt number increments and the stored backoff step is carried over. -/
def openLaunch {σ B : Type} (s : CBState σ B) : CBState σ B :=
  match s.inner with
  | .opened _ attemptNo backoff => { s with inner := .halfOpen (attemptNo + 1) backoff }
  | _ => s

/-- The body of the private `halfOpen` method, consuming the probe's outcome:
on success tell the strategy `success(HalfOpen)` and close; on a handled
failure tell the strategy `failure(HalfOpen)` and reopen; on an unhandled
throw close and rethrow the original error. -/
def halfOpenSettle {σ B : Type} (bops : BreakerOps σ) (bk : BackoffOps B)
    (factory : HalfOpenContext → B) (now : Int) (o : Outcome) (s : CBState σ B) :
    CBState σ B × Except ExecError Int :=
  match invoke o with
  | .error e => (cbClose s, .error (.thrown e))
  | .ok (.success v) =>
      (cbClose { s with strategy := bops.success s.strategy .HalfOpen }, .ok v)
  | .ok (.errorReason e) =>
      let fr := bops.failure s.strategy .HalfOpen
      (cbOpen bk factory (.errorReason e) now
          { s with strategy := fr.1, lastFailure := some (.errorReason e) },
        returnOrThrow (.errorReason e))
  | .ok (.valueReason v) =>
      let fr := bops.failure s.strategy .HalfOpen
      (cbOpen bk factory (.valueReason v) now
          { s with strategy := fr.1, lastFailure := some (.valueReason v) },
        returnOrThrow (.valueReason v))

deriving instance DecidableEq for Except

/-- What one `execute` call does up to its first suspension: either it settles
(`done`, recording whether the wrapped operation was invoked) or, in the
half-open state, it suspends on the in-flight probe without invoking
anything (`waits`). -/
inductive ExecOutcome where
  | done (result : Except ExecError Int) (invoked : Bool)
  | waits
deriving DecidableEq, Repr

/-- One `execute` call against the current state, mirroring the `switch` in
`CircuitBreakerPolicy.execute`. `o` is the outcome the wrapped operation
would produce if it were invoked by this call. -/
def executeOnce {σ B : Type} (bops : BreakerOps σ) (bk : BackoffOps B)
    (factory : HalfOpenContext → B) (now : Int) (o : Outcome) (s : CBState σ B) :
    CBState σ B × ExecOutcome :=
  match s.inner with
  | .closed =>
      let r := closedExec bops bk factory now o s
      (r.1, .done r.2 true)
  | .halfOpen _ _ => (s, .waits)
  | .opened openedAt _ backoff =>
      if now - openedAt < bk.duration backoff then
        (s, .done (.error .brokenCircuit) false)
      else
        let r := halfOpenSettle bops bk factory now o (openLaunch s)
        (r.1, .done r.2 true)
  | .isolated _ => (s, .done (.error .isolatedCircuit) false)

/-- The cooperative-concurrency run of the half-open deduplication scenario,
with the atomic segments sequenced as the event loop would run them:

* caller A calls `execute` (intended initial state: open with the reopen delay
  elapsed), which launches the probe and transitions to half-open;
* caller B calls `execute` while A's probe is in flight; it hits the
  `CircuitState.HalfOpen` branch, so it suspends on `state.test` without
  invoking anything;
* the probe settles with outcome `probeOut`, updating the breaker;
* B resumes: per the half-open branch it first checks
  `state === Closed && signal.aborted` (throwing `TaskCancelledError`), and
  otherwise re-enters `execute` with its own function, whose own outcome
  would be `waiterOut`.

Returns the final breaker state, A's result, B's result, and how many times a
wrapped operation was invoked in total. -/
def dedupeRun {σ B : Type} (bops : BreakerOps σ) (bk : BackoffOps B)
    (factory : HalfOpenContext → B) (now : Int) (aborted : Bool)
    (probeOut waiterOut : Outcome) (s : CBState σ B) :
    CBState σ B × Except ExecError Int × Except ExecError Int × Nat :=
  match executeOnce bops bk factory now probeOut s with
  | (s1, .waits) => (s1, .error .taskCancelled, .error .taskCancelled, 0)
  | (s1, .done rA invokedA) =>
    let nA : Nat := if invokedA then 1 else 0
    if s1.inner.value = CircuitState.Closed ∧ aborted then
      (s1, rA, .error .taskCancelled, nA)
    else
      match executeOnce bops bk factory now waiterOut s1 with
      | (s2, .done rB invokedB) => (s2, rA, rB, nA + if invokedB then 1 else 0)
      | (s2, .waits) => (s2, rA, .error .taskCancelled, nA)

/-! ## Breaker strategies -/

/-- A construction-time `RangeError`. -/
inductive RangeErr where
  | rangeError
deriving DecidableEq, Repr

/-- `Number.isSafeInteger`. -/
def isSafeInteger (q : Rat) : Prop :=
  q.den = 1 ∧ |q.num| ≤ 2 ^ 53 - 1

instance (q : Rat) : Decidable (isSafeInteger q) := by
  unfold isSafeInteger; infer_instance

/-- `ConsecutiveBreaker`: its state is the consecutive-failure count. The
constructor stores the threshold and performs no validation. -/
def consecutiveBreakerNew (_threshold : Rat) : Except RangeErr Nat :=
  .ok 0

/-- `ConsecutiveBreaker.success()`: resets the count. -/
def consecutiveSuccess (_count : Nat) : Nat := 0

/-- `ConsecutiveBreaker.failure()`: `++this.count >= this.threshold`. -/
def consecutiveFailure (threshold : Rat) (count : Nat) : Nat × Bool :=
  (count + 1, decide (threshold ≤ (count + 1 : Rat)))

/-- `CountBreaker` mutable state (`breaker/CountBreaker.ts`). -/
structure CountBreakerState where
  threshold : Rat
  minimumNumberOfCalls : Nat
  samples : List (Option Bool)
  successes : Int
  failures : Int
  currentSample : Nat
deriving DecidableEq, Repr

/-- The `CountBreaker` constructor: validates `threshold ∈ (0, 1)`, that
`size` is a safe integer `≥ 1`, and that `minimumNumberOfCalls` (defaulting
to `size`) is a safe integer in `[1, size]`; otherwise a `RangeError`. -/
def countBreakerNew (threshold size : Rat) (minimumNumberOfCalls : Option Rat) :
    Except RangeErr CountBreakerState :=
  if threshold ≤ 0 ∨ 1 ≤ threshold then .error .rangeError
  else if ¬isSafeInteger size ∨ size < 1 then .error .rangeError
  else if ¬isSafeInteger (minimumNumberOfCalls.getD size) ∨
      minimumNumberOfCalls.getD size < 1 ∨ size < minimumNumberOfCalls.getD size then
    .error .rangeError
  else
    .ok { threshold := threshold
          minimumNumberOfCalls := (minimumNumberOfCalls.getD size).num.toNat
          samples := List.replicate size.num.toNat none
          successes := 0
          failures := 0
          currentSample := 0 }

/-- `CountBreaker.sample(success)`: overwrite the current slot, adjusting the
running totals incrementally, and advance the cursor. -/
def countSample (success : Bool) (s : CountBreakerState) : CountBreakerState :=
  let current := s.samples.getD s.currentSample none
  let successes := match current with | some true => s.successes - 1 | _ => s.successes
  let failures := match current with | some false => s.failures - 1 | _ => s.failures
  { s with
    samples := s.samples.set s.currentSample (some success)
    successes := if success then successes + 1 else successes
    failures := if success then failures else failures + 1
    currentSample := (s.currentSample + 1) % s.samples.length }

/-- `CountBreaker.reset()`. -/
def countReset (s : CountBreakerState) : CountBreakerState :=
  { s with samples := List.replicate s.samples.length none, successes := 0, failures := 0 }

/-- `CountBreaker.success(state)`: a success that settles a half-open probe
first resets the whole window. -/
def countSuccess (cs : CircuitState) (s : CountBreakerState) : CountBreakerState :=
  countSample true (if cs = .HalfOpen then countReset s else s)

/-- `CountBreaker.failure(state)`: records the sample, then returns `true`
unconditionally outside the closed state; in the closed state it opens when
the minimum volume is met and `failures > threshold * total`. -/
def countFailure (cs : CircuitState) (s : CountBreakerState) : CountBreakerState × Bool :=
  let s' := countSample false s
  if cs ≠ .Closed then (s', true)
  else
    let total : Int := s'.successes + s'.failures
    if total < (s'.minimumNumberOfCalls : Int) then (s', false)
    else if s'.threshold * (total : Rat) < (s'.failures : Rat) then (s', true)
    else (s', false)

/-- One time bucket of the `SamplingBreaker`. -/
structure SamplingWindow where
  startedAt : Int
  failures : Int
  successes : Int
deriving DecidableEq, Repr

/-- `SamplingBreaker` mutable state plus its derived configuration. -/
structure SamplingState where
  threshold : Rat
  minimumRpms : Rat
  duration : Int
  windowSize : Int
  windows : List SamplingWindow
  currentWindow : Nat
  currentFailures : Int
  currentSuccesses : Int
deriving DecidableEq, Repr

/-- `Math.round` for a rational (round half away from zero is JS behaviour for
positive arguments; JS rounds half toward positive infinity). -/
def jsRound (q : Rat) : Int := ⌊q + 1 / 2⌋

/-- The `SamplingBreaker` constructor: validates only `threshold ∈ (0, 1)`
(the sampling duration is not validated), derives at least 5 windows of at
most one second each, and defaults the minimum rate so that at least 5
failures per second are needed at the given threshold. -/
def samplingBreakerNew (threshold duration : Rat) (minimumRps : Option Rat) :
    Except RangeErr SamplingState :=
  if threshold ≤ 0 ∨ 1 ≤ threshold then .error .rangeError
  else
    let windowCount : Int := max 5 ⌈duration / 1000⌉
    let windowSize : Int := jsRound (duration / (windowCount : Rat))
    .ok { threshold := threshold
          minimumRpms := match minimumRps with
            | some rps => rps / 1000
            | none => 5 / (threshold * 1000)
          duration := windowSize * windowCount
          windowSize := windowSize
          windows := List.replicate windowCount.toNat ⟨0, 0, 0⟩
          currentWindow := 0
          currentFailures := 0
          currentSuccesses := 0 }

/-- `SamplingBreaker.rotateWindow(now)`. -/
def samplingRotate (now : Int) (s : SamplingState) : SamplingState :=
  let next := (s.currentWindow + 1) % s.windows.length
  let nw := s.windows.getD next ⟨0, 0, 0⟩
  { s with
    currentFailures := s.currentFailures - nw.failures
    currentSuccesses := s.currentSuccesses - nw.successes
    windows := s.windows.set next ⟨now, 0, 0⟩
    currentWindow := next }

/-- `SamplingBreaker.push(success)` at time `now`: advance the current bucket
when real time crossed a bucket boundary, then record the sample in the
current bucket and the rolling totals. -/
def samplingPush (now : Int) (success : Bool) (s : SamplingState) : SamplingState :=
  let w := s.windows.getD s.currentWindow ⟨0, 0, 0⟩
  let s := if s.windowSize ≤ now - w.startedAt then samplingRotate now s else s
  let cw := s.windows.getD s.currentWindow ⟨0, 0, 0⟩
  if success then
    { s with
      windows := s.windows.set s.currentWindow { cw with successes := cw.successes + 1 }
      currentSuccesses := s.currentSuccesses + 1 }
  else
    { s with
      windows := s.windows.set s.currentWindow { cw with failures := cw.failures + 1 }
      currentFailures := s.currentFailures + 1 }

/-- `SamplingBreaker.resetWindows()`. -/
def samplingResetWindows (s : SamplingState) : SamplingState :=
  { s with
    currentFailures := 0
    currentSuccesses := 0
    windows := s.windows.map fun w => { w with failures := 0, successes := 0, startedAt := 0 } }

/-- `SamplingBreaker.success(state)`. -/
def samplingSuccess (now : Int) (cs : CircuitState) (s : SamplingState) : SamplingState :=
  samplingPush now true (if cs = .HalfOpen then samplingResetWindows s else s)

/-- `SamplingBreaker.failure(state)`: records the sample, then returns `true`
unconditionally outside the closed state; in the closed state it opens when
the volume implies the minimum rate and `failures > threshold * total`. -/
def samplingFailure (now : Int) (cs : CircuitState) (s : SamplingState) :
    SamplingState × Bool :=
  let s' := samplingPush now false s
  if cs ≠ .Closed then (s', true)
  else
    let total : Int := s'.currentSuccesses + s'.currentFailures
    if (total : Rat) < (s'.duration : Rat) * s'.minimumRpms then (s', false)
    else if s'.threshold * (total : Rat) < (s'.currentFailures : Rat) then (s', true)
    else (s', false)

/-! ## Retry engine (`RetryPolicy.ts`, step-style backoffs from
`backoff/ConstantBackoff.ts`) -/

/-- `ConstantBackoff` (step style): a constant interval, an optional attempt
limit, and the current index. -/
structure ConstantBackoffOld where
  interval : Int
  limit : Option Nat
  index : Nat
deriving DecidableEq, Repr

/-- `ConstantBackoff.duration()`. -/
def ConstantBackoffOld.durationOf (b : ConstantBackoffOld) : Int := b.interval

/-- `ConstantBackoff.next()`: unlimited backoffs return themselves; limited
ones stop (`undefined`) once `index >= limit - 1`. -/
def ConstantBackoffOld.nextStep (b : ConstantBackoffOld) : Option ConstantBackoffOld :=
  match b.limit with
  | none => some b
  | some l => if l - 1 ≤ b.index then none else some { b with index := b.index + 1 }

/-- `RetryPolicy.attempts(count)` composes `new ConstantBackoff(1, count)`
(directly, when no other backoff was configured). -/
def attemptsBackoff (count : Nat) : ConstantBackoffOld :=
  { interval := 1, limit := some count, index := 0 }

/-- The loop of `RetryPolicy.execute`, driven by `op attemptIndex`, the
outcome the operation produces on its `attemptIndex`-th invocation
(0-based). Returns `some (invocations, giveUpEmissions, result)`, or `none`
when the fuel runs out before the loop settles. On a handled failure with a
live backoff the call waits and retries; with an exhausted backoff it emits
`onGiveUp` with the failure reason and rethrows the error (or returns the
unacceptable value). Unhandled throws propagate immediately. -/
def retryLoop (op : Nat → Outcome) :
    Nat → Option ConstantBackoffOld → Nat →
    Option (Nat × List FailureOrSuccess × Except ExecError Int)
  | 0, _, _ => none
  | fuel + 1, backoff, retries =>
    match invoke (op retries) with
    | .error e => some (1, [], .error (.thrown e))
    | .ok (.success v) => some (1, [], .ok v)
    | .ok (.errorReason e) =>
      match backoff with
      | some b =>
        match retryLoop op fuel b.nextStep (retries + 1) with
        | none => none
        | some (n, gs, res) => some (n + 1, gs, res)
      | none => some (1, [.errorReason e], returnOrThrow (.errorReason e))
    | .ok (.valueReason v) =>
      match backoff with
      | some b =>
        match retryLoop op fuel b.nextStep (retries + 1) with
        | none => none
        | some (n, gs, res) => some (n + 1, gs, res)
      | none => some (1, [.valueReason v], returnOrThrow (.valueReason v))

/-- `RetryPolicy.execute(fn)`: the loop starts from the configured backoff,
defaulting to `new ConstantBackoff(0, 1)`. -/
def retryExecute (op : Nat → Outcome) (configured : Option ConstantBackoffOld)
    (fuel : Nat) : Option (Nat × List FailureOrSuccess × Except ExecError Int) :=
  retryLoop op fuel (some (configured.getD { interval := 0, limit := some 1, index := 0 })) 0

/-! ## Exponential backoff (`backoff/ExponentialBackoff.ts`, factory style) -/

/-- Options of `ExponentialBackoff` (the generator is passed separately;
`maxAttempts` is `none` for the default `Infinity`). -/
structure ExpOptions where
  maxDelay : Nat
  maxAttempts : Option Nat
  exponent : Nat
  initialDelay : Nat
deriving DecidableEq, Repr

/-- A generator: previous state and options to delay and next state, with the
state tracking the 0-based attempt number. -/
def GeneratorFn : Type := Option Nat → ExpOptions → Nat × Nat

/-- Modelled from the spec: `ExponentialBackoffGenerators.ts` is not among the
sources, only its callers and tests; per §4.1 the no-jitter exponential delay
is `min(maxDelay, initialDelay * exponent^attempt)`, the generator state
being the attempt counter. -/
def noJitterGenerator : GeneratorFn := fun state o =>
  let attempt := state.getD 0
  (min o.maxDelay (o.initialDelay * o.exponent ^ attempt), attempt + 1)

/-- One step of the exponential backoff chain (the closure produced by
`instance(options, state, delay, attempt)`). -/
structure ExpBackoffStep where
  options : ExpOptions
  state : Option Nat
  delay : Nat
  attempt : Int
deriving DecidableEq, Repr

/-- `instance(...).next()`: stops once `attempt >= maxAttempts - 1`, otherwise
runs the generator and advances the attempt counter. -/
def ExpBackoffStep.nextStep (gen : GeneratorFn) (b : ExpBackoffStep) :
    Option ExpBackoffStep :=
  let stop : Bool := match b.options.maxAttempts with
    | some m => decide ((m : Int) - 1 ≤ b.attempt)
    | none => false
  if stop then none
  else
    let g := gen b.state b.options
    some { options := b.options, state := some g.2, delay := g.1, attempt := b.attempt + 1 }

/-- `new ExponentialBackoff(options).next()` =
`instance(options).next(undefined)` (initial state: no generator state,
delay 0, attempt -1). -/
def expFactoryNext (gen : GeneratorFn) (o : ExpOptions) : Option ExpBackoffStep :=
  ExpBackoffStep.nextStep gen { options := o, state := none, delay := 0, attempt := -1 }

/-- The `k`-th step of the chain (k = 0 is the factory's first step). -/
def expStepAt (gen : GeneratorFn) (o : ExpOptions) : Nat → Option ExpBackoffStep
  | 0 => expFactoryNext gen o
  | k + 1 => (expStepAt gen o k).bind (ExpBackoffStep.nextStep gen)

/-! ## Bulkhead (`BulkheadPolicy.ts`) -/

/-- The mutable fields of a `BulkheadPolicy` plus its configured capacities.
Queued items are identified by the id of the submitted operation. -/
structure BulkheadState where
  capacity : Nat
  queueCapacity : Nat
  active : Nat
  queue : List Nat
deriving DecidableEq, Repr

/-- `BulkheadPolicy.executionSlots`. -/
def executionSlots (s : BulkheadState) : Nat := s.capacity - s.active

/-- `BulkheadPolicy.queueSlots`. -/
def queueSlots (s : BulkheadState) : Nat := s.queueCapacity - s.queue.length

/-- How one `execute` submission is admitted. -/
inductive AdmitResult where
  | started
  | queued
  | rejected (capacity queueCapacity : Nat)
deriving DecidableEq, Repr

/-- The admission path of `BulkheadPolicy.execute`: run immediately while
`active < capacity`, otherwise enqueue while the queue has room, otherwise
reject with `BulkheadRejectedError(capacity, queueCapacity)`. -/
def bhSubmit (s : BulkheadState) (op : Nat) : BulkheadState × AdmitResult :=
  if s.active < s.capacity then ({ s with active := s.active + 1 }, .started)
  else if s.queue.length < s.queueCapacity then
    ({ s with queue := s.queue ++ [op] }, .queued)
  else (s, .rejected s.capacity s.queueCapacity)

/-- Submit several operations in order, collecting each admission result. -/
def bhSubmitAll (s : BulkheadState) (ops : List Nat) :
    BulkheadState × List AdmitResult :=
  match ops with
  | [] => (s, [])
  | op :: rest =>
    let r := bhSubmit s op
    let rr := bhSubmitAll r.1 rest
    (rr.1, r.2 :: rr.2)

/-- The settlement path of `BulkheadPolicy.execute` (`finally` block plus
`dequeue`): decrement `active`, then shift the oldest queued item, which
re-enters the admission path. Returns the dequeued operation and how it was
(re-)admitted, if the queue was non-empty. -/
def bhSettleOne (s : BulkheadState) : BulkheadState × Option (Nat × AdmitResult) :=
  let s1 : BulkheadState := { s with active := s.active - 1 }
  match s1.queue with
  | [] => (s1, none)
  | op :: rest =>
    let r := bhSubmit { s1 with queue := rest } op
    (r.1, some (op, r.2))

/-! ## Circuit breaker isolation (`CircuitBreakerPolicy.isolate`) -/

/-- The isolation subsystem's state: `none` models the closed breaker,
`some c` the isolated breaker with `counters = c`; `handles` records, per
`isolate()` call in creation order, whether its handle has been disposed. -/
structure IsoState where
  counters : Option Nat
  handles : List Bool
deriving DecidableEq, Repr

/-- An isolation-subsystem operation: a new `isolate()` call, or a
`dispose()` call on the handle with the given creation index. -/
inductive IsoOp where
  | isolate
  | dispose (h : Nat)
deriving DecidableEq, Repr

/-- One step: `isolate()` enters the isolated state (counter 0) when not
already isolated, then increments the counter and issues a fresh handle;
`dispose()` on a not-yet-disposed handle marks it disposed and decrements
the counter, returning to closed when it reaches zero; a repeated `dispose()`
is a no-op. -/
def isoStep (s : IsoState) : IsoOp → IsoState
  | .isolate =>
    { counters := some ((s.counters.getD 0) + 1), handles := s.handles ++ [false] }
  | .dispose h =>
    if hh : h < s.handles.length then
      if s.handles.get ⟨h, hh⟩ then s
      else
        let handles := s.handles.set h true
        match s.counters with
        | some c =>
          if c - 1 = 0 then { counters := none, handles := handles }
          else { counters := some (c - 1), handles := handles }
        | none => { counters := none, handles := handles }
    else s

/-- Run a sequence of isolation operations from the closed breaker. -/
def isoRun (ops : List IsoOp) : IsoState :=
  ops.foldl isoStep { counters := none, handles := [] }

/-! ## Concrete instances used by witnesses and counterexamples -/

/-- A `ConsecutiveBreaker(3)` bundled as strategy operations (its
`success`/`failure` ignore the circuit state). -/
def consecOps3 : BreakerOps Nat :=
  { success := fun c _ => consecutiveSuccess c
    failure := fun c _ => consecutiveFailure 3 c }

/-- Iterable backoff steps bundled as backoff operations (their `next`
ignores the context). -/
def iterOps : BackoffOps IterableBackoffStep :=
  { duration := IterableBackoffStep.durationOf
    next := fun b _ => b.nextStep }

/-- An `IterableBackoff(durations)` factory. -/
def iterFactory (durations : List Int) : HalfOpenContext → IterableBackoffStep :=
  fun _ => iterableFactoryNext durations

/-- A breaker that opened at time 0, on its first open, holding the first
step of `IterableBackoff([1000, 2000])` (duration 1000). -/
def cbOpenReady : CBState Nat IterableBackoffStep :=
  { strategy := 0
    inner := .opened 0 1 (iterableFactoryNext [1000, 2000])
    lastFailure := none }

/-- A breaker in the half-open state (probe in flight). -/
def cbHalfOpenState : CBState Nat IterableBackoffStep :=
  { strategy := 0
    inner := .halfOpen 2 (iterableFactoryNext [1000, 2000])
    lastFailure := none }

/-- Number of not-yet-disposed isolation handles. -/
def undisposed (s : IsoState) : Nat := s.handles.count false

/-- The isolation invariant: the breaker is closed with no undisposed handle,
or isolated with the counter equal to the (positive) number of undisposed
handles. -/
def isoInv (s : IsoState) : Prop :=
  match s.counters with
  | none => undisposed s = 0
  | some c => undisposed s = c ∧ 0 < c

/-! ## Theorems -/

/-- C2: every `execute` call made while the breaker is open with
`now - openedAt < backoffStep.duration` throws `BrokenCircuitError`, leaves
the breaker untouched, and never invokes the wrapped operation. -/
theorem open_state_fails_fast {σ B : Type} (bops : BreakerOps σ) (bk : BackoffOps B)
    (factory : HalfOpenContext → B) (now t : Int) (a : Nat) (b : B)
    (s : CBState σ B) (o : Outcome) (hs : s.inner = .opened t a b)
    (h : now - t < bk.duration b) :
    executeOnce bops bk factory now o s = (s, .done (.error .brokenCircuit) false) := by
  unfold executeOnce
  rw [hs]
  simp [h]

/-- Witness for C2: a breaker opened at time 0 with a 1000ms first step,
executed at time 500. -/
theorem open_state_fails_fast_witness :
    executeOnce consecOps3 iterOps (iterFactory [1000, 2000]) 500 (.success 1) cbOpenReady =
      (cbOpenReady, .done (.error .brokenCircuit) false) :=
  open_state_fails_fast consecOps3 iterOps (iterFactory [1000, 2000]) 500 0 1
    (iterableFactoryNext [1000, 2000]) cbOpenReady (.success 1) rfl (by decide)

/-- C4: an unhandled (unclassified) error thrown while the half-open probe is
running transitions the breaker to closed and propagates the original error
unchanged; the strategy and `lastFailure` are untouched. -/
theorem halfopen_unhandled_closes {σ B : Type} (bops : BreakerOps σ) (bk : BackoffOps B)
    (factory : HalfOpenContext → B) (now : Int) (e : Int) (a : Nat) (b : B)
    (s : CBState σ B) (hs : s.inner = .halfOpen a b) :
    halfOpenSettle bops bk factory now (.unhandled e) s =
      ({ s with inner := .closed }, .error (.thrown e)) := by
  unfold halfOpenSettle invoke cbClose
  rw [hs]

/-- Witness for C4: an unhandled error 7 during the probe closes the breaker
and rethrows 7. -/
theorem halfopen_unhandled_closes_witness :
    halfOpenSettle consecOps3 iterOps (iterFactory [1000, 2000]) 1000 (.unhandled 7)
        cbHalfOpenState =
      ({ cbHalfOpenState with inner := .closed }, .error (.thrown 7)) :=
  halfopen_unhandled_closes consecOps3 iterOps (iterFactory [1000, 2000]) 1000 7 2
    (iterableFactoryNext [1000, 2000]) cbHalfOpenState rfl

/-- C5: with `maxAttempts = 5` (`attempts(5)`, i.e. `ConstantBackoff(1, 5)`)
and an operation that always throws a handled error `e`, the operation is
invoked exactly 6 times, `onGiveUp` fires exactly once with the final failure
reason, and `execute` rejects with the original error unchanged. -/
theorem retry_gives_up_after_six (e : Int) :
    retryExecute (fun _ => .handledError e) (some (attemptsBackoff 5)) 10 =
      some (6, [.errorReason e], .error (.thrown e)) := rfl

/-- C6: bulkhead with capacity 2 and queue capacity 2 under 5 concurrent
submissions: two start immediately, two are queued, the fifth is rejected
with `BulkheadRejectedError(2, 2)`; as slots free up the queued items run in
FIFO order; and the slot getters always equal capacity minus active and
queue capacity minus queue length (with the concrete values at every point
of the scenario). -/
theorem bulkhead_admission_scenario :
    bhSubmit ⟨2, 2, 0, []⟩ 1 = (⟨2, 2, 1, []⟩, .started) ∧
    bhSubmit ⟨2, 2, 1, []⟩ 2 = (⟨2, 2, 2, []⟩, .started) ∧
    bhSubmit ⟨2, 2, 2, []⟩ 3 = (⟨2, 2, 2, [3]⟩, .queued) ∧
    bhSubmit ⟨2, 2, 2, [3]⟩ 4 = (⟨2, 2, 2, [3, 4]⟩, .queued) ∧
    bhSubmit ⟨2, 2, 2, [3, 4]⟩ 5 = (⟨2, 2, 2, [3, 4]⟩, .rejected 2 2) ∧
    bhSubmitAll ⟨2, 2, 0, []⟩ [1, 2, 3, 4, 5] =
      (⟨2, 2, 2, [3, 4]⟩, [.started, .started, .queued, .queued, .rejected 2 2]) ∧
    bhSettleOne ⟨2, 2, 2, [3, 4]⟩ = (⟨2, 2, 2, [4]⟩, some (3, .started)) ∧
    bhSettleOne ⟨2, 2, 2, [4]⟩ = (⟨2, 2, 2, []⟩, some (4, .started)) ∧
    bhSettleOne ⟨2, 2, 2, []⟩ = (⟨2, 2, 1, []⟩, none) ∧
    [⟨2, 2, 0, []⟩, ⟨2, 2, 1, []⟩, ⟨2, 2, 2, []⟩, ⟨2, 2, 2, [3]⟩,
        ⟨2, 2, 2, [3, 4]⟩].map executionSlots = [2, 1, 0, 0, 0] ∧
    [⟨2, 2, 0, []⟩, ⟨2, 2, 1, []⟩, ⟨2, 2, 2, []⟩, ⟨2, 2, 2, [3]⟩,
        ⟨2, 2, 2, [3, 4]⟩].map queueSlots = [2, 2, 2, 1, 0] ∧
    ∀ s : BulkheadState,
      executionSlots s = s.capacity - s.active ∧
      queueSlots s = s.queueCapacity - s.queue.length := by
  refine ⟨by decide, by decide, by decide, by decide, by decide, by decide, by decide,
    by decide, by decide, by decide, by decide, fun s => ⟨rfl, rfl⟩⟩

/-- C9: for both `CountBreaker` and `SamplingBreaker`, `failure(state)` with
any circuit state other than closed returns `true` unconditionally, whatever
the recorded counts, thresholds or clock say. -/
theorem breaker_failure_nonclosed_opens (cs : CircuitState) (h : cs ≠ .Closed) :
    ∀ (now : Int) (s : SamplingState) (t : CountBreakerState),
      (samplingFailure now cs s).2 = true ∧ (countFailure cs t).2 = true := by
  intro now s t
  constructor
  · unfold samplingFailure
    simp [h]
  · unfold countFailure
    simp [h]

/-- Witness for C9: a half-open `SamplingBreaker` with zero recorded failures
and a half-open `CountBreaker` with an empty window both report `true`. -/
theorem breaker_failure_nonclosed_opens_witness :
    (samplingFailure 0 .HalfOpen ⟨1 / 2, 1 / 100, 10000, 1000, [⟨0, 0, 0⟩], 0, 0, 0⟩).2 = true ∧
    (countFailure .HalfOpen ⟨1 / 2, 50, [none], 0, 0, 0⟩).2 = true :=
  breaker_failure_nonclosed_opens .HalfOpen (by decide) 0
    ⟨1 / 2, 1 / 100, 10000, 1000, [⟨0, 0, 0⟩], 0, 0, 0⟩ ⟨1 / 2, 50, [none], 0, 0, 0⟩

/-- C1 counterexample: a breaker whose reopen delay has elapsed runs caller
A's probe (returning 1); caller B arrives during the probe, waits, and after
the probe closes the circuit B re-executes its *own* operation (returning 2).
B observes outcome 2, not the probe's outcome 1, and the wrapped operation
is invoked twice in total — refuting "every caller that invokes execute
while the probe is in flight observes the same outcome as the probe rather
than triggering a second invocation". -/
theorem halfopen_waiter_outcome_counterexample :
    dedupeRun consecOps3 iterOps (iterFactory [1000, 2000]) 1000 false
        (.success 1) (.success 2) cbOpenReady =
      ({ strategy := 0, inner := .closed, lastFailure := none }, .ok 1, .ok 2, 2) ∧
    (Except.ok 2 : Except ExecError Int) ≠ .ok 1 ∧ (2 : Nat) ≠ 1 := by
  refine ⟨by decide, by decide, by decide⟩

/-- C1 amended: while the breaker is half-open, a caller hitting `execute`
suspends on the in-flight probe without invoking anything (single-flight:
at most the one probe invocation is in progress); but a waiting caller does
not adopt the probe's outcome — once the probe settles it re-enters
`execute` in the new state, running its own invocation when the probe closed
the circuit, and failing fast with `BrokenCircuitError` (with no second
invocation) when the failed probe re-opened it. -/
theorem halfopen_single_flight_amended :
    (∀ (σ B : Type) (bops : BreakerOps σ) (bk : BackoffOps B)
        (factory : HalfOpenContext → B) (now : Int) (o : Outcome)
        (s : CBState σ B) (a : Nat) (b : B), s.inner = .halfOpen a b →
        executeOnce bops bk factory now o s = (s, .waits)) ∧
    (∀ v w : Int,
        dedupeRun consecOps3 iterOps (iterFactory [1000, 2000]) 1000 false
            (.success v) (.success w) cbOpenReady =
          ({ strategy := 0, inner := .closed, lastFailure := none }, .ok v, .ok w, 2)) ∧
    (∀ e w : Int,
        dedupeRun consecOps3 iterOps (iterFactory [1000, 2000]) 1000 false
            (.handledError e) (.success w) cbOpenReady =
          ({ strategy := 1,
             inner := .opened 1000 2 ⟨[1000, 2000], 1⟩,
             lastFailure := some (.errorReason e) },
            .error (.thrown e), .error .brokenCircuit, 1)) := by
  refine ⟨?_, ?_, ?_⟩
  · intro σ B bops bk factory now o s a b hs
    unfold executeOnce
    rw [hs]
  · intro v w
    rfl
  · intro e w
    rfl

/-- Witness for C1 amended: a caller arriving at a half-open breaker waits
without invoking; a probe returning 1 with a waiter whose own operation
returns 2 gives A outcome 1, B outcome 2, two invocations. -/
theorem halfopen_single_flight_amended_witness :
    executeOnce consecOps3 iterOps (iterFactory [1000, 2000]) 1000 (.success 5)
        cbHalfOpenState = (cbHalfOpenState, .waits) ∧
    dedupeRun consecOps3 iterOps (iterFactory [1000, 2000]) 1000 false
        (.success 1) (.success 2) cbOpenReady =
      ({ strategy := 0, inner := .closed, lastFailure := none }, .ok 1, .ok 2, 2) :=
  ⟨halfopen_single_flight_amended.1 Nat IterableBackoffStep consecOps3 iterOps
      (iterFactory [1000, 2000]) 1000 (.success 5) cbHalfOpenState 2
      (iterableFactoryNext [1000, 2000]) rfl,
    halfopen_single_flight_amended.2.1 1 2⟩

/-- C3 counterexample: an open breaker holding the first step of
`IterableBackoff([1000, 2000])` transitions to half-open carrying that step
*unchanged* (index 0), even though `backoffStep.next` would produce the
advanced step (index 1) — refuting "the reopen backoff step is advanced by
one call to backoffStep.next as part of that Open-to-HalfOpen transition". -/
theorem open_to_halfopen_backoff_counterexample :
    (openLaunch cbOpenReady).inner = .halfOpen 2 (iterableFactoryNext [1000, 2000]) ∧
    (iterableFactoryNext [1000, 2000]).nextStep = ⟨[1000, 2000], 1⟩ ∧
    (InnerState.halfOpen 2 (iterableFactoryNext [1000, 2000]) :
        InnerState IterableBackoffStep) ≠
      .halfOpen 2 ⟨[1000, 2000], 1⟩ := by
  refine ⟨by decide, by decide, by decide⟩

/-- C3 amended: when `execute` finds the breaker open with the reopen delay
elapsed, it transitions to half-open launching exactly one probe and
incrementing the consecutive-open attempt counter by 1, while carrying the
backoff step over unchanged; `backoffStep.next` is called only on the
HalfOpen-to-Open transition taken when the probe fails. -/
theorem open_to_halfopen_amended :
    ∀ (σ B : Type) (bops : BreakerOps σ) (bk : BackoffOps B)
      (factory : HalfOpenContext → B) (now t : Int) (o : Outcome)
      (s : CBState σ B) (a : Nat) (b : B),
      s.inner = .opened t a b → ¬ now - t < bk.duration b →
      ((openLaunch s).inner = .halfOpen (a + 1) b ∧
        executeOnce bops bk factory now o s =
          ((halfOpenSettle bops bk factory now o (openLaunch s)).1,
            .done (halfOpenSettle bops bk factory now o (openLaunch s)).2 true) ∧
        ∀ r : FailureOrSuccess,
          (cbOpen bk factory r now (openLaunch s)).inner =
            .opened now (a + 1) (bk.next b ⟨a + 1, r⟩)) := by
  intro σ B bops bk factory now t o s a b hs h
  refine ⟨?_, ?_, ?_⟩
  · unfold openLaunch
    rw [hs]
  · unfold executeOnce
    rw [hs]
    simp [h]
  · intro r
    unfold cbOpen openLaunch
    rw [hs]

/-- Witness for C3 amended: the concrete open breaker `cbOpenReady` probed at
time 1000. -/
theorem open_to_halfopen_amended_witness :
    (openLaunch cbOpenReady).inner = .halfOpen 2 (iterableFactoryNext [1000, 2000]) ∧
    executeOnce consecOps3 iterOps (iterFactory [1000, 2000]) 1000 (.success 3) cbOpenReady =
      ((halfOpenSettle consecOps3 iterOps (iterFactory [1000, 2000]) 1000 (.success 3)
          (openLaunch cbOpenReady)).1,
        .done (halfOpenSettle consecOps3 iterOps (iterFactory [1000, 2000]) 1000 (.success 3)
          (openLaunch cbOpenReady)).2 true) ∧
    ∀ r : FailureOrSuccess,
      (cbOpen iterOps (iterFactory [1000, 2000]) r 1000 (openLaunch cbOpenReady)).inner =
        .opened 1000 2 (iterOps.next (iterableFactoryNext [1000, 2000]) ⟨2, r⟩) :=
  open_to_halfopen_amended Nat IterableBackoffStep consecOps3 iterOps
    (iterFactory [1000, 2000]) 1000 0 (.success 3) cbOpenReady 1
    (iterableFactoryNext [1000, 2000]) rfl (by decide)

/-- C7 counterexample: `new ConsecutiveBreaker(2)` has its threshold outside
the open interval (0, 1) yet constructs successfully — no range error is
raised, refuting "for every breaker strategy ... raises a range error". -/
theorem breaker_construction_counterexample :
    consecutiveBreakerNew 2 = .ok 0 ∧ ((2 : Rat) ≤ 0 ∨ 1 ≤ (2 : Rat)) :=
  ⟨rfl, by norm_num⟩

/-- C7 amended: `CountBreaker` and `SamplingBreaker` raise a `RangeError` at
construction exactly when the threshold is outside (0, 1) — `CountBreaker`
also when `size` or `minimumNumberOfCalls` is not a safe integer or out of
range — while `ConsecutiveBreaker` performs no construction-time validation
at all, and `SamplingBreaker` does not validate its sampling duration. -/
theorem breaker_construction_amended :
    (∀ t : Rat, consecutiveBreakerNew t = .ok 0) ∧
    (∀ t d : Rat, ∀ rps : Option Rat,
        samplingBreakerNew t d rps = .error .rangeError ↔ t ≤ 0 ∨ 1 ≤ t) ∧
    (∀ t s m : Rat,
        countBreakerNew t s (some m) = .error .rangeError ↔
          (t ≤ 0 ∨ 1 ≤ t) ∨ (¬isSafeInteger s ∨ s < 1) ∨
            (¬isSafeInteger m ∨ m < 1 ∨ s < m)) := by
  refine ⟨fun t => rfl, ?_, ?_⟩
  · intro t d rps
    unfold samplingBreakerNew
    split_ifs with h
    · exact iff_of_true rfl h
    · exact iff_of_false (by simp) h
  · intro t s m
    unfold countBreakerNew
    simp only [Option.getD_some]
    split_ifs with h1 h2 h3
    · exact iff_of_true rfl (Or.inl h1)
    · exact iff_of_true rfl (Or.inr (Or.inl h2))
    · exact iff_of_true rfl (Or.inr (Or.inr h3))
    · exact iff_of_false (by simp) (by tauto)

/-- Closed form of the no-jitter exponential chain: the `k`-th step carries
attempt counter `k`, generator state `k + 1`, and the spec's delay. -/
theorem expStepAt_noJitter_closed_form (o : ExpOptions) (h : o.maxAttempts = none) :
    ∀ k : Nat, expStepAt noJitterGenerator o k =
      some { options := o, state := some (k + 1),
             delay := min o.maxDelay (o.initialDelay * o.exponent ^ k),
             attempt := (k : Int) } := by
  intro k
  induction k with
  | zero =>
    unfold expStepAt expFactoryNext ExpBackoffStep.nextStep noJitterGenerator
    simp [h]
  | succ k ih =>
    unfold expStepAt
    rw [ih]
    unfold ExpBackoffStep.nextStep noJitterGenerator
    simp [h]

/-- C8: for the exponential backoff with the no-jitter generator and no
attempt limit, the `k`-th step's duration is
`min(maxDelay, initialDelay * exponent^k)`; with `initialDelay = 128` and
`exponent = 2` the durations are 128, 256, 512, 1024, ... capped at the
30000ms `maxDelay`. -/
theorem exponential_no_jitter_formula :
    (∀ o : ExpOptions, o.maxAttempts = none → ∀ k : Nat,
        (expStepAt noJitterGenerator o k).map ExpBackoffStep.delay =
          some (min o.maxDelay (o.initialDelay * o.exponent ^ k))) ∧
    (List.range 10).map
        (fun k =>
          (expStepAt noJitterGenerator ⟨30000, none, 2, 128⟩ k).map ExpBackoffStep.delay) =
      [some 128, some 256, some 512, some 1024, some 2048, some 4096, some 8192,
        some 16384, some 30000, some 30000] := by
  constructor
  · intro o h k
    rw [expStepAt_noJitter_closed_form o h k]
    rfl
  · decide

/-- Witness for C8: the fourth step (k = 3) of the default 128ms/exponent-2
chain lasts 1024ms. -/
theorem exponential_no_jitter_formula_witness :
    (expStepAt noJitterGenerator ⟨30000, none, 2, 128⟩ 3).map ExpBackoffStep.delay =
      some (min 30000 (128 * 2 ^ 3)) :=
  exponential_no_jitter_formula.1 ⟨30000, none, 2, 128⟩ rfl 3

/-- Setting a false entry of a boolean list to true decreases the number of
false entries by exactly one. -/
theorem count_false_set_true (l : List Bool) :
    ∀ (h : Nat) (hh : h < l.length), l.get ⟨h, hh⟩ = false →
      (l.set h true).count false + 1 = l.count false := by
  induction l with
  | nil => intro h hh; exact absurd hh (Nat.not_lt_zero h)
  | cons a t ih =>
    intro h hh hg
    cases h with
    | zero =>
      simp only [List.get] at hg
      subst hg
      simp [List.count_cons]
    | succ h =>
      have hh' : h < t.length := Nat.lt_of_succ_lt_succ hh
      have := ih h hh' hg
      simp only [List.set, List.count_cons]
      omega

/-- One isolation-subsystem step preserves the refcount invariant. -/
theorem isoStep_preserves_inv (s : IsoState) (op : IsoOp) (hs : isoInv s) :
    isoInv (isoStep s op) := by
  cases op with
  | isolate =>
    unfold isoInv undisposed at *
    cases hc : s.counters with
    | none =>
      rw [hc] at hs
      simp [isoStep, hc, List.count_append, hs]
    | some c =>
      rw [hc] at hs
      simp [isoStep, hc, List.count_append, hs.1]
  | dispose h =>
    simp only [isoStep]
    by_cases hh : h < s.handles.length
    · rw [dif_pos hh]
      by_cases hg : s.handles.get ⟨h, hh⟩ = true
      · rw [if_pos hg]
        exact hs
      · rw [if_neg hg]
        have hfalse : s.handles.get ⟨h, hh⟩ = false := by
          simpa using hg
        have hcount := count_false_set_true s.handles h hh hfalse
        cases hc : s.counters with
        | none =>
          unfold isoInv undisposed at hs
          rw [hc] at hs
          dsimp only at hs
          have hmem : (false : Bool) ∈ s.handles := hfalse ▸ s.handles.get_mem _ _
          have : 0 < s.handles.count false := List.count_pos_iff.mpr hmem
          omega
        | some c =>
          unfold isoInv undisposed at hs
          rw [hc] at hs
          dsimp only at hs ⊢
          by_cases hc1 : c - 1 = 0
          · rw [if_pos hc1]
            unfold isoInv undisposed
            dsimp only
            omega
          · rw [if_neg hc1]
            unfold isoInv undisposed
            dsimp only
            omega
    · rw [dif_neg hh]
      exact hs

/-- The refcount invariant holds after any operation sequence from the
closed breaker. -/
theorem isoRun_inv (ops : List IsoOp) : isoInv (isoRun ops) := by
  have main : ∀ (l : List IsoOp) (s : IsoState), isoInv s → isoInv (l.foldl isoStep s) := by
    intro l
    induction l with
    | nil => intro s hs; exact hs
    | cons op rest ih => intro s hs; exact ih _ (isoStep_preserves_inv s op hs)
  exact main ops ⟨none, []⟩ (by simp [isoInv, undisposed])

/-- C10: disposing an isolation handle twice is a no-op the second time, and
after any sequence of `isolate()` and `dispose()` calls the breaker is
closed exactly when every issued handle has been disposed at least once —
however many extra `dispose()` calls were made. -/
theorem isolate_dispose_refcount :
    (∀ (s : IsoState) (h : Nat) (hh : h < s.handles.length),
        s.handles.get ⟨h, hh⟩ = true → isoStep s (.dispose h) = s) ∧
    (∀ ops : List IsoOp,
        (isoRun ops).counters = none ↔ ∀ b ∈ (isoRun ops).handles, b = true) := by
  constructor
  · intro s h hh hg
    simp only [isoStep]
    rw [dif_pos hh, if_pos hg]
  · intro ops
    have hinv := isoRun_inv ops
    unfold isoInv undisposed at hinv
    cases hc : (isoRun ops).counters with
    | none =>
      rw [hc] at hinv
      refine ⟨fun _ b hb => ?_, fun _ => rfl⟩
      by_contra hbne
      have hbf : b = false := by
        cases b
        · rfl
        · exact absurd rfl hbne
      subst hbf
      have : 0 < (isoRun ops).handles.count false := List.count_pos_iff.mpr hb
      omega
    | some c =>
      rw [hc] at hinv
      constructor
      · intro habs
        exact absurd habs (by simp)
      · intro hall
        have hnot : (false : Bool) ∉ (isoRun ops).handles := by
          intro hmem
          exact Bool.false_ne_true (hall false hmem)
        have : (isoRun ops).handles.count false = 0 := List.count_eq_zero.mpr hnot
        omega

/-- Witness for C10: a second `dispose()` on an already-disposed handle is a
no-op, and after `isolate(); isolate(); dispose(h0); dispose(h0);
dispose(h1)` the breaker is closed with both handles disposed. -/
theorem isolate_dispose_refcount_witness :
    isoStep ⟨some 1, [true]⟩ (.dispose 0) = ⟨some 1, [true]⟩ ∧
    ((isoRun [.isolate, .isolate, .dispose 0, .dispose 0, .dispose 1]).counters = none ↔
      ∀ b ∈ (isoRun [.isolate, .isolate, .dispose 0, .dispose 0, .dispose 1]).handles,
        b = true) :=
  ⟨isolate_dispose_refcount.1 ⟨some 1, [true]⟩ 0 (by decide) rfl,
    isolate_dispose_refcount.2 [.isolate, .isolate, .dispose 0, .dispose 0, .dispose 1]⟩

end Cockatiel
